import Mathlib

set_option maxHeartbeats 2000000

/-!
Verification of the data-refresh and query-execution layer of UTILIDADE.PY
(restaurant/club dashboard). The embedding models the PostgreSQL tables as row
lists, the fixed parameterized statements as a deep enumeration carrying their
literal text, and the process-wide Streamlit state (the st.cache_resource slot
of get_db_connection, the st.cache_data slot of load_all_data, and
st.session_state.data) as an explicit record threaded through the operations.
External library behaviour is modelled as follows: st.cache_resource and
st.cache_data memoize the decorated function's return value; psycopg2 yields a
fresh open connection handle when connect succeeds; cursor creation and
statement execution raise on a handle whose close() has run; conn.rollback()
succeeds on an open handle but itself raises InterfaceError on a closed one,
so when run_query enters its except branch holding a closed handle the
rollback re-raises, st.error is never reached, and the exception propagates to
the caller (recorded below as the raised outcome); conn.close() on a closed
handle is a no-op.
-/

namespace Utilidade

/-- SQL value as it appears in a result tuple: text, integer, or timestamp. -/
inductive Val where
  | s (v : String)
  | i (v : Int)
  | t (v : Nat)
  deriving DecidableEq, Repr

/-- A result row is a tuple of values, as psycopg2's fetchall returns. -/
abbrev Row := List Val

/-- Insert an element into a list ordered by the boolean comparator le. -/
def insertLe (le : α → α → Bool) (a : α) : List α → List α
  | [] => [a]
  | b :: l => if le a b then a :: b :: l else b :: insertLe le a l

/-- Insertion sort by a boolean comparator; models an ORDER BY clause. -/
def sortLe (le : α → α → Bool) : List α → List α
  | [] => []
  | a :: l => insertLe le a (sortLe le l)

/-- Ascending string comparator, for ORDER BY over a text column. -/
def strLe (a b : String) : Bool := (compare a b).isLE

/-- Row of public.tb_pedido. -/
structure OrderRow where
  cliente : String
  produto : String
  quantidade : Int
  data : Nat
  status : String
  deriving DecidableEq, Repr

/-- Row of public.tb_products. -/
structure ProductRow where
  supplier : String
  product : String
  quantity : Int
  unit_value : Int
  total_value : Int
  creation_date : Nat
  categoria : String
  description : String
  price : Int
  deriving DecidableEq, Repr

/-- Row of public.tb_estoque. -/
structure StockRow where
  produto : String
  quantidade : Int
  transacao : String
  data : Nat
  deriving DecidableEq, Repr

/-- Database state: the base tables plus the two views. The views are
aggregates maintained outside this code, so they are carried as opaque row
lists rather than computed from the base tables. -/
structure DB where
  tb_pedido : List OrderRow
  tb_products : List ProductRow
  tb_clientes : List String
  tb_estoque : List StockRow
  vw_pedido_produto : List Row
  vw_stock_vs_orders_summary : List Row
  deriving DecidableEq, Repr

/-- The parameterized SQL statements the program submits. Each constructor
stands for one statement literal occurring in UTILIDADE.PY; updatePedido and
deletePedido belong to the truncated tail of orders_page and are modelled from
the spec (see editApply). -/
inductive Stmt where
  | ordersSelect
  | productsSelect
  | clientsSelect
  | stockSelect
  | clientesSelect
  | categoriesSelect
  | menuProductsSelect
  | clientCountSelect
  | openOrdersSelect
  | stockVsOrdersSelect
  | insertPedido
  | updatePedido
  | deletePedido
  deriving DecidableEq, Repr

/-- The literal statement text submitted for each statement, whitespace
normalized from the source strings. -/
def Stmt.text : Stmt → String
  | .ordersSelect => "SELECT \"Cliente\", \"Produto\", \"Quantidade\", \"Data\", status FROM public.tb_pedido ORDER BY \"Data\" DESC"
  | .productsSelect => "SELECT supplier, product, quantity, unit_value, total_value, creation_date FROM public.tb_products ORDER BY creation_date DESC"
  | .clientsSelect => "SELECT DISTINCT \"Cliente\" FROM public.tb_pedido ORDER BY \"Cliente\""
  | .stockSelect => "SELECT \"Produto\", \"Quantidade\", \"Transação\", \"Data\" FROM public.tb_estoque ORDER BY \"Data\" DESC"
  | .clientesSelect => "SELECT nome_completo FROM public.tb_clientes ORDER BY nome_completo"
  | .categoriesSelect => "SELECT DISTINCT categoria FROM public.tb_products ORDER BY categoria"
  | .menuProductsSelect => "SELECT product, description, price FROM public.tb_products WHERE categoria = %s"
  | .clientCountSelect => "SELECT COUNT(DISTINCT \"Cliente\") AS client_count FROM public.tb_pedido WHERE status = %s"
  | .openOrdersSelect => "SELECT \"Cliente\", SUM(\"total\") as Total FROM public.vw_pedido_produto WHERE status = %s GROUP BY \"Cliente\" ORDER BY \"Cliente\" DESC"
  | .stockVsOrdersSelect => "SELECT product, stock_quantity, orders_quantity, total_in_stock FROM public.vw_stock_vs_orders_summary"
  | .insertPedido => "INSERT INTO public.tb_pedido (\"Cliente\", \"Produto\", \"Quantidade\", \"Data\", status) VALUES (%s, %s, %s, %s, 'em aberto')"
  | .updatePedido => "UPDATE public.tb_pedido SET \"Produto\" = %s, \"Quantidade\" = %s, status = %s WHERE \"Cliente\" = %s AND \"Produto\" = %s AND \"Data\" = %s"
  | .deletePedido => "DELETE FROM public.tb_pedido WHERE \"Cliente\" = %s AND \"Produto\" = %s AND \"Data\" = %s"

/-- Encoding of a tb_pedido row as the tuple fetched by the orders query. -/
def encOrder (o : OrderRow) : Row :=
  [.s o.cliente, .s o.produto, .i o.quantidade, .t o.data, .s o.status]

/-- Encoding of a tb_products row as the tuple fetched by the products query. -/
def encProduct (p : ProductRow) : Row :=
  [.s p.supplier, .s p.product, .i p.quantity, .i p.unit_value, .i p.total_value, .t p.creation_date]

/-- Encoding of a tb_estoque row as the tuple fetched by the stock query. -/
def encStock (r : StockRow) : Row :=
  [.s r.produto, .i r.quantidade, .s r.transacao, .t r.data]

/-- Result rows of each read statement, translated from its SQL text over the
database state; the two view selects return the externally maintained view
contents. -/
def evalRead (db : DB) : Stmt → List Val → List Row
  | .ordersSelect, _ =>
    (sortLe (fun a b => decide (b.data ≤ a.data)) db.tb_pedido).map encOrder
  | .productsSelect, _ =>
    (sortLe (fun a b => decide (b.creation_date ≤ a.creation_date)) db.tb_products).map encProduct
  | .clientsSelect, _ =>
    (sortLe strLe (db.tb_pedido.map (fun o => o.cliente)).dedup).map (fun c => [.s c])
  | .stockSelect, _ =>
    (sortLe (fun a b => decide (b.data ≤ a.data)) db.tb_estoque).map encStock
  | .clientesSelect, _ =>
    (sortLe strLe db.tb_clientes).map (fun c => [.s c])
  | .categoriesSelect, _ =>
    (sortLe strLe (db.tb_products.map (fun p => p.categoria)).dedup).map (fun c => [.s c])
  | .menuProductsSelect, [.s cat] =>
    (db.tb_products.filter (fun p => p.categoria == cat)).map
      (fun p => [.s p.product, .s p.description, .i p.price])
  | .clientCountSelect, [.s stat] =>
    [[.i (((db.tb_pedido.filter (fun o => o.status == stat)).map (fun o => o.cliente)).dedup.length : Int)]]
  | .openOrdersSelect, _ => db.vw_pedido_produto
  | .stockVsOrdersSelect, _ => db.vw_stock_vs_orders_summary
  | _, _ => []

/-- Effect of a committed mutation on the database. The INSERT branch is
translated from orders_page: the status column is the literal 'em aberto'
inside the statement text, the timestamp is the fourth parameter. The update
and delete branches give semantics to the spec-modelled statements used by
editApply. -/
def applyWrite (db : DB) : Stmt → List Val → DB
  | .insertPedido, [.s c, .s p, .i q, .t ts] =>
    { db with tb_pedido := (db.tb_pedido ++
        [{ cliente := c, produto := p, quantidade := q, data := ts, status := "em aberto" }]) }
  | .updatePedido, [.s np, .i nq, .s nst, .s c, .s p, .t ts] =>
    { db with tb_pedido := (db.tb_pedido.map (fun o =>
        if o.cliente == c && o.produto == p && o.data == ts then
          { o with produto := np, quantidade := nq, status := nst } else o)) }
  | .deletePedido, [.s c, .s p, .t ts] =>
    { db with tb_pedido := (db.tb_pedido.filter
        (fun o => !(o.cliente == c && o.produto == p && o.data == ts))) }
  | _, _ => db

/-- A psycopg2 connection handle; closed records that close() has run on it. -/
structure Conn where
  id : Nat
  closed : Bool
  deriving DecidableEq, Repr

/-- What a run_query call delivers to its caller: a fetched row list, True, or
None returned normally, or raised when an exception escapes the call (the
rollback in the except branch re-raising on a closed handle). -/
inductive RunResult where
  | rows (rs : List Row)
  | ok
  | none
  | raised
  deriving DecidableEq, Repr

/-- Observable outcome of one run_query call: what was delivered, whether a
rollback completed, and whether the except branch reported an error via
st.error. -/
structure RunOutcome where
  result : RunResult
  rolledBack : Bool
  errorReported : Bool
  deriving DecidableEq, Repr

/-- External environment: whether psycopg2.connect succeeds when it is
attempted, and which statement executions the database rejects (constraint
violations and similar). -/
structure Env where
  connectOk : Bool
  stmtFails : Stmt → List Val → Bool

/-- The dict load_all_data returns: one fetched row list per dataset. -/
structure Snapshot where
  orders : List Row
  products : List Row
  clients : List Row
  stock : List Row
  deriving DecidableEq, Repr

/-- Process-wide state: the st.cache_resource slot of get_db_connection (none
means the slot is empty, some v means the first call's return value v is
stored, where v itself may be a cached None), the st.cache_data slot of
load_all_data, st.session_state.data, and the number of connections opened so
far (used to give fresh handles their identity). -/
structure SessionState where
  connCache : Option (Option Conn)
  dataCache : Option Snapshot
  sessionData : Snapshot
  opened : Nat
  deriving DecidableEq, Repr

/-- get_db_connection (UTILIDADE.PY lines 131-148): decorated with
st.cache_resource, so the first call's return value, a fresh connection or
None when connect raises OperationalError, is stored and every later call
returns the stored value without reconnecting. -/
def get_db_connection (env : Env) (s : SessionState) : SessionState × Option Conn :=
  match s.connCache with
  | some cached => (s, cached)
  | none =>
    if env.connectOk then
      let c : Conn := { id := s.opened, closed := false }
      ({ s with connCache := some (some c), opened := s.opened + 1 }, some c)
    else
      ({ s with connCache := some (Option.none : Option Conn) }, Option.none)

/-- Try/except of run_query given the obtained connection. On a closed handle
conn.cursor() raises, the except branch's conn.rollback() raises InterfaceError
itself (closed handle), st.error is never reached and the exception propagates:
raised, no rollback, no report. On an open handle a rejected execution raises,
the rollback succeeds, st.error reports and None is returned. Otherwise a
commit=True statement is applied and committed (True), and a read returns the
fetched rows. -/
def runQueryBody (env : Env) (db : DB) (conn : Conn) (stmt : Stmt) (vals : List Val)
    (commit : Bool) : DB × RunOutcome :=
  if conn.closed then
    (db, { result := .raised, rolledBack := false, errorReported := false })
  else if env.stmtFails stmt vals then
    (db, { result := .none, rolledBack := true, errorReported := true })
  else if commit then
    (applyWrite db stmt vals, { result := .ok, rolledBack := false, errorReported := false })
  else
    (db, { result := .rows (evalRead db stmt vals), rolledBack := false, errorReported := false })

/-- Mark the cached connection handle closed. The handle run_query holds is
always the one stored in the st.cache_resource slot, so conn.close() in the
finally clause closes the cached handle in place (a no-op when it is already
closed). -/
def closeCached (s : SessionState) : SessionState :=
  { s with connCache :=
      match s.connCache with
      | some (some c) => some (some { c with closed := true })
      | other => other }

/-- run_query (UTILIDADE.PY lines 151-172): obtains the cached connection and
returns None when it is None; otherwise runs the try/except (runQueryBody),
whose exception from the rollback on a closed handle propagates to the caller
as the raised outcome; the finally clause closes the connection on every exit
path, normal or exceptional. -/
def run_query (env : Env) (s : SessionState) (db : DB) (stmt : Stmt) (vals : List Val)
    (commit : Bool) : SessionState × DB × RunOutcome :=
  match get_db_connection env s with
  | (s1, Option.none) =>
    (s1, db, { result := .none, rolledBack := false, errorReported := false })
  | (s1, Option.some conn) =>
    (closeCached s1, runQueryBody env db conn stmt vals commit)

/-- A record of one statement handed to run_query: the statement, its
parameter tuple, and the commit flag. -/
abbrev CallRec := Stmt × List Val × Bool

/-- The Python idiom run_query(q) or []: a falsy result (None, or an empty
row list) is replaced by the empty list. -/
def RunResult.rowsOrNil : RunResult → List Row
  | .rows rs => rs
  | _ => []

/-- load_all_data (UTILIDADE.PY lines 178-209), decorated with st.cache_data:
on a cache hit the stored snapshot is returned and no query runs; on a miss
the four fixed reads run in order inside one try, each dataset being its own
query's row list with a falsy result replaced by the empty list. When a
run_query call raises (closed cached handle), the surrounding except catches
it, the remaining queries never run and the partial dict is returned: keys
never assigned are represented here as empty lists, which is observably
identical since every consumer reads the dict through get(key, []). The
possibly partial snapshot is stored in the cache slot; the third component
lists the statements actually handed to run_query. -/
def load_all_data (env : Env) (s : SessionState) (db : DB) :
    SessionState × Snapshot × List CallRec :=
  match s.dataCache with
  | some snap => (s, snap, [])
  | none =>
    let r1 := run_query env s db .ordersSelect [] false
    if r1.2.2.result = RunResult.raised then
      let snap : Snapshot := { orders := [], products := [], clients := [], stock := [] }
      ({ r1.1 with dataCache := some snap }, snap, [(.ordersSelect, [], false)])
    else
      let r2 := run_query env r1.1 db .productsSelect [] false
      if r2.2.2.result = RunResult.raised then
        let snap : Snapshot :=
          { orders := r1.2.2.result.rowsOrNil, products := [], clients := [], stock := [] }
        ({ r2.1 with dataCache := some snap }, snap,
          [(.ordersSelect, [], false), (.productsSelect, [], false)])
      else
        let r3 := run_query env r2.1 db .clientsSelect [] false
        if r3.2.2.result = RunResult.raised then
          let snap : Snapshot :=
            { orders := r1.2.2.result.rowsOrNil, products := r2.2.2.result.rowsOrNil,
              clients := [], stock := [] }
          ({ r3.1 with dataCache := some snap }, snap,
            [(.ordersSelect, [], false), (.productsSelect, [], false),
             (.clientsSelect, [], false)])
        else
          let r4 := run_query env r3.1 db .stockSelect [] false
          if r4.2.2.result = RunResult.raised then
            let snap : Snapshot :=
              { orders := r1.2.2.result.rowsOrNil, products := r2.2.2.result.rowsOrNil,
                clients := r3.2.2.result.rowsOrNil, stock := [] }
            ({ r4.1 with dataCache := some snap }, snap,
              [(.ordersSelect, [], false), (.productsSelect, [], false),
               (.clientsSelect, [], false), (.stockSelect, [], false)])
          else
            let snap : Snapshot :=
              { orders := r1.2.2.result.rowsOrNil
                products := r2.2.2.result.rowsOrNil
                clients := r3.2.2.result.rowsOrNil
                stock := r4.2.2.result.rowsOrNil }
            ({ r4.1 with dataCache := some snap }, snap,
              [(.ordersSelect, [], false), (.productsSelect, [], false),
               (.clientsSelect, [], false), (.stockSelect, [], false)])

/-- refresh_data (UTILIDADE.PY lines 212-217): clears load_all_data's cache,
reloads everything, and stores the result in st.session_state.data. -/
def refresh_data (env : Env) (s : SessionState) (db : DB) :
    SessionState × List CallRec :=
  let s1 : SessionState := { s with dataCache := Option.none }
  let r := load_all_data env s1 db
  ({ r.1 with sessionData := r.2.1 }, r.2.2)

/-- Result of pressing Register Order: the success, error, or warning message
shown to the user, or the INSERT's exception propagating out of orders_page
(raised), in which case neither branch of the success test runs. -/
inductive SubmitOutcome where
  | success
  | dbFailure
  | validationWarning
  | raised
  deriving DecidableEq, Repr

/-- The call record of the order-creation INSERT of orders_page: fixed
statement, the user-supplied values as the parameter tuple, commit=True. -/
def insertPedidoCall (c p : String) (q : Int) (ts : Nat) : CallRec :=
  (.insertPedido, [.s c, .s p, .i q, .t ts], true)

/-- The call record of the category-filtered product query of menu_page:
fixed statement, the selected category as the single parameter. -/
def menuProductsCall (cat : String) : CallRec :=
  (.menuProductsSelect, [.s cat], false)

/-- Order creation, translated from orders_page lines 433-447: validation is
the Python truthiness test customer and product and quantity greater than 0; a
valid submission runs the INSERT, whose statement text fixes the status to
'em aberto' and whose fourth parameter is the submission instant, and a truthy
result triggers refresh_data while a falsy one only shows an error; an invalid
submission shows one warning and issues no database call. The last component
lists the statements handed to run_query. -/
def submitOrder (env : Env) (s : SessionState) (db : DB)
    (customer product : String) (quantity : Int) (now : Nat) :
    SessionState × DB × SubmitOutcome × List CallRec :=
  if customer ≠ "" ∧ product ≠ "" ∧ 0 < quantity then
    let r := run_query env s db .insertPedido [.s customer, .s product, .i quantity, .t now] true
    match r.2.2.result with
    | .ok =>
      let rf := refresh_data env r.1 r.2.1
      (rf.1, r.2.1, .success, insertPedidoCall customer product quantity now :: rf.2)
    | .raised => (r.1, r.2.1, .raised, [insertPedidoCall customer product quantity now])
    | _ => (r.1, r.2.1, .dbFailure, [insertPedidoCall customer product quantity now])
  else
    (s, db, .validationWarning, [])

/-- Customer list of the order form (orders_page lines 420-421): a truthy row
list from the tb_clientes query is prefixed with the empty choice, a falsy
result gives the empty list. A raising query would abort the page before the
list is built; this function covers the returned-value cases. -/
def customerListFrom (r : RunResult) : List String :=
  match r with
  | .rows rs =>
    if rs.isEmpty then []
    else "" :: rs.filterMap (fun row =>
      match row with
      | [Val.s n] => some n
      | _ => Option.none)
  | _ => []

/-- Decoded row of the vw_stock_vs_orders_summary view. -/
structure SvoRow where
  product : String
  stock_quantity : Int
  orders_quantity : Int
  total_in_stock : Int
  deriving DecidableEq, Repr

/-- Decode the fetched view tuples into SvoRow records. -/
def decodeSvo (rs : List Row) : List SvoRow :=
  rs.filterMap (fun row =>
    match row with
    | [Val.s p, Val.i a, Val.i b, Val.i c] =>
      some { product := p, stock_quantity := a, orders_quantity := b, total_in_stock := c }
    | _ => Option.none)

/-- Message the stock summary section can show instead of or next to a table. -/
inductive SectionMsg where
  | infoNoData
  | errorShown
  deriving DecidableEq, Repr

/-- What the Stock vs. Orders section renders: the displayed table rows, the
reported grand total, and any message. -/
structure SectionOut where
  table : Option (List (String × Int))
  totalReported : Option Int
  message : Option SectionMsg
  deriving DecidableEq, Repr

/-- Stock vs. Orders summary of home_page (lines 374-405) as a function of the
view query's result: a truthy row list is rendered sorted by Total_in_Stock
descending together with its summed grand total; a falsy returned result (zero
rows, or None) shows only the info message; a query that raises is caught by
the section's own except, which shows the error message and nothing else. -/
def stockVsOrdersSection (r : RunResult) : SectionOut :=
  match r with
  | .rows rs =>
    if rs.isEmpty then
      { table := Option.none, totalReported := Option.none, message := some .infoNoData }
    else
      let ds := decodeSvo rs
      let sorted := sortLe (fun a b => decide (b.total_in_stock ≤ a.total_in_stock)) ds
      { table := some (sorted.map (fun x => (x.product, x.total_in_stock)))
        totalReported := some ((sorted.map (fun x => x.total_in_stock)).sum)
        message := Option.none }
  | .raised =>
    { table := Option.none, totalReported := Option.none, message := some .errorShown }
  | _ => { table := Option.none, totalReported := Option.none, message := some .infoNoData }

/-- Row of the displayed orders table df_orders (orders_page lines 450-455). -/
structure DisplayOrder where
  client : String
  product : String
  quantity : Int
  date : Nat
  status : String
  deriving DecidableEq, Repr

/-- The strftime rendering of the timestamp used inside unique_key, modelled
as the decimal print of the tick count (second resolution). -/
def formatTs (ts : Nat) : String := toString ts

/-- unique_key of a displayed order row (orders_page lines 462-466): client,
product and formatted timestamp joined with a vertical bar. -/
def uniqueKey (r : DisplayOrder) : String :=
  r.client ++ "|" ++ r.product ++ "|" ++ formatTs r.date

/-- The admin's choice in the edit form: change product, quantity and status,
or delete the order. -/
inductive EditAction where
  | update (newProduct : String) (newQuantity : Int) (newStatus : String)
  | delete
  deriving DecidableEq, Repr

/-- Outcome of the edit-or-delete section shown to the admin. -/
inductive EditOutcome where
  | ambiguousWarning
  | noSelection
  | applied
  | failed
  deriving DecidableEq, Repr

/-- Modelled from the spec: the tail of orders_page after source line 513 is
truncated, so the edit form's submission is taken from the spec, which says an
edit changes product, quantity and status only and a delete removes the row,
both identified by the composite (client, product, timestamp) key, funnelled
through the Query Executor with invalidateAndReload on success; any
non-success executor outcome (including a propagated exception) is folded
into the failure outcome of this spec-level component. -/
def editApply (env : Env) (s : SessionState) (db : DB) (row : DisplayOrder)
    (act : EditAction) : SessionState × DB × EditOutcome × List CallRec :=
  let call : CallRec :=
    match act with
    | .update np nq nst =>
      (.updatePedido, [.s np, .i nq, .s nst, .s row.client, .s row.product, .t row.date], true)
    | .delete =>
      (.deletePedido, [.s row.client, .s row.product, .t row.date], true)
  let r := run_query env s db call.1 call.2.1 call.2.2
  match r.2.2.result with
  | .ok =>
    let rf := refresh_data env r.1 r.2.1
    (rf.1, r.2.1, .applied, call :: rf.2)
  | _ => (r.1, r.2.1, .failed, [call])

/-- Edit-or-delete selection of orders_page lines 462-475: the displayed rows
matching the selected composite-key string are collected; with more than one
match the page only shows a warning and refuses to proceed; with exactly one
match the edit form is shown and its action applied (editApply models the
truncated tail); an unmatched key selects nothing. -/
def editDeleteFlow (env : Env) (s : SessionState) (db : DB)
    (ordersDisp : List DisplayOrder) (selectedKey : String) (act : EditAction) :
    SessionState × DB × EditOutcome × List CallRec :=
  let matching := ordersDisp.filter (fun r => uniqueKey r == selectedKey)
  if 1 < matching.length then (s, db, .ambiguousWarning, [])
  else
    match matching with
    | [] => (s, db, .noSelection, [])
    | row :: _ => editApply env s db row act

/-- Environment in which connect succeeds and the database rejects no
statement. -/
def env0 : Env := { connectOk := true, stmtFails := fun _ _ => false }

/-- Environment in which connect succeeds and exactly the order INSERT is
rejected by the database (a constraint violation). -/
def envInsFail : Env :=
  { connectOk := true
    stmtFails := fun st _ =>
      match st with
      | .insertPedido => true
      | _ => false }

/-- The empty snapshot. -/
def emptySnap : Snapshot := { orders := [], products := [], clients := [], stock := [] }

/-- Fresh process state: both cache slots empty, no data loaded, no
connection opened yet. -/
def sInit : SessionState :=
  { connCache := Option.none, dataCache := Option.none, sessionData := emptySnap, opened := 0 }

/-- A state whose st.cache_resource slot already holds the connection opened
by an earlier call and closed by that call's finally clause. -/
def sClosed : SessionState :=
  { connCache := some (some { id := 0, closed := true })
    dataCache := Option.none
    sessionData := emptySnap
    opened := 1 }

/-- A pedido row used by the concrete scenarios. -/
def anaOrder : OrderRow :=
  { cliente := "Ana", produto := "Water", quantidade := 2, data := 50, status := "em aberto" }

/-- Database with one registered client, one product, and one open order. -/
def dbP : DB :=
  { tb_pedido := [anaOrder]
    tb_products :=
      [{ supplier := "S1", product := "Water", quantity := 10, unit_value := 2,
         total_value := 20, creation_date := 10, categoria := "Drinks",
         description := "Still water", price := 3 }]
    tb_clientes := ["Ana", "Bruno"]
    tb_estoque := []
    vw_pedido_produto := []
    vw_stock_vs_orders_summary := [] }

/-- Database with a registered client and product but no orders yet. -/
def dbC : DB :=
  { tb_pedido := []
    tb_products :=
      [{ supplier := "S1", product := "Water", quantity := 10, unit_value := 2,
         total_value := 20, creation_date := 10, categoria := "Drinks",
         description := "Still water", price := 3 }]
    tb_clientes := ["Ana"]
    tb_estoque := []
    vw_pedido_produto := []
    vw_stock_vs_orders_summary := [] }

/-- A displayed order row for the ambiguity scenario. -/
def rowAW : DisplayOrder :=
  { client := "Ana", product := "Water", quantity := 2, date := 50, status := "em aberto" }

/-- A second displayed order row sharing rowAW's composite key with different
quantity and status. -/
def rowBW : DisplayOrder :=
  { client := "Ana", product := "Water", quantity := 3, date := 50, status := "Received - Cash" }

/-- The fresh connection handle opened by the first accessor call. -/
def connW : Conn := { id := 0, closed := false }

/-- Session state right after the accessor has opened and cached connW. -/
def sOpenW : SessionState :=
  { connCache := some (some connW), dataCache := Option.none,
    sessionData := emptySnap, opened := 1 }

/-!
Helper lemmas about the sorting helper and the connection accessor, shared by
the claim theorems below.
-/

theorem mem_insertLe (le : α → α → Bool) (a x : α) (l : List α) :
    x ∈ insertLe le a l ↔ x = a ∨ x ∈ l := by
  induction l with
  | nil => simp [insertLe]
  | cons b t ih =>
    simp only [insertLe]
    split
    · simp
    · simp only [List.mem_cons, ih]
      tauto

theorem mem_sortLe (le : α → α → Bool) (x : α) (l : List α) :
    x ∈ sortLe le l ↔ x ∈ l := by
  induction l with
  | nil => simp [sortLe]
  | cons a t ih => simp [sortLe, mem_insertLe, ih]

theorem closeCached_sessionData (s : SessionState) :
    (closeCached s).sessionData = s.sessionData := rfl

theorem closeCached_dataCache (s : SessionState) :
    (closeCached s).dataCache = s.dataCache := rfl

theorem closeCached_opened (s : SessionState) :
    (closeCached s).opened = s.opened := rfl

theorem run_query_eq_none (env : Env) (s : SessionState) (db : DB) (stmt : Stmt)
    (vals : List Val) (commit : Bool) (s1 : SessionState)
    (hg : get_db_connection env s = (s1, Option.none)) :
    run_query env s db stmt vals commit =
      (s1, db, { result := RunResult.none, rolledBack := false, errorReported := false }) := by
  unfold run_query
  rw [hg]

theorem run_query_eq_some (env : Env) (s : SessionState) (db : DB) (stmt : Stmt)
    (vals : List Val) (commit : Bool) (s1 : SessionState) (conn : Conn)
    (hg : get_db_connection env s = (s1, some conn)) :
    run_query env s db stmt vals commit =
      (closeCached s1, runQueryBody env db conn stmt vals commit) := by
  unfold run_query
  rw [hg]

theorem runQueryBody_closed (env : Env) (db : DB) (conn : Conn) (stmt : Stmt)
    (vals : List Val) (commit : Bool) (h : conn.closed = true) :
    runQueryBody env db conn stmt vals commit =
      (db, { result := RunResult.raised, rolledBack := false, errorReported := false }) := by
  simp [runQueryBody, h]

theorem runQueryBody_execfail (env : Env) (db : DB) (conn : Conn) (stmt : Stmt)
    (vals : List Val) (commit : Bool) (h1 : conn.closed = false)
    (h2 : env.stmtFails stmt vals = true) :
    runQueryBody env db conn stmt vals commit =
      (db, { result := RunResult.none, rolledBack := true, errorReported := true }) := by
  simp [runQueryBody, h1, h2]

theorem runQueryBody_commit (env : Env) (db : DB) (conn : Conn) (stmt : Stmt)
    (vals : List Val) (h1 : conn.closed = false) (h2 : env.stmtFails stmt vals = false) :
    runQueryBody env db conn stmt vals true =
      (applyWrite db stmt vals,
        { result := RunResult.ok, rolledBack := false, errorReported := false }) := by
  simp [runQueryBody, h1, h2]

theorem runQueryBody_read (env : Env) (db : DB) (conn : Conn) (stmt : Stmt)
    (vals : List Val) (h1 : conn.closed = false) (h2 : env.stmtFails stmt vals = false) :
    runQueryBody env db conn stmt vals false =
      (db, { result := RunResult.rows (evalRead db stmt vals),
             rolledBack := false, errorReported := false }) := by
  simp [runQueryBody, h1, h2]

theorem get_db_connection_spec (env : Env) (s s1 : SessionState) (co : Option Conn)
    (h : get_db_connection env s = (s1, co)) :
    s1.connCache = some co ∧ s1.sessionData = s.sessionData ∧ s1.dataCache = s.dataCache
    ∧ (∀ v, s.connCache = some v → s1 = s ∧ co = v) := by
  unfold get_db_connection at h
  rcases hc : s.connCache with _ | v
  · rw [hc] at h
    by_cases he : env.connectOk
    · rw [if_pos he] at h
      cases h
      refine ⟨rfl, rfl, rfl, ?_⟩
      intro v hv
      exact Option.noConfusion hv
    · rw [if_neg he] at h
      cases h
      refine ⟨rfl, rfl, rfl, ?_⟩
      intro v hv
      exact Option.noConfusion hv
  · rw [hc] at h
    cases h
    refine ⟨hc, rfl, rfl, ?_⟩
    intro w hw
    injection hw with hw2
    exact ⟨rfl, hw2⟩

theorem run_query_raised_next (env : Env) (s : SessionState) (db db2 : DB)
    (stmt stmt2 : Stmt) (vals vals2 : List Val) (commit commit2 : Bool)
    (h : (run_query env s db stmt vals commit).2.2.result = RunResult.raised) :
    (run_query env (run_query env s db stmt vals commit).1 db2 stmt2 vals2 commit2).2.2.result
      = RunResult.raised := by
  rcases hg : get_db_connection env s with ⟨s1, co⟩
  rcases co with _ | conn
  · rw [run_query_eq_none env s db stmt vals commit s1 hg] at h
    simp at h
  · by_cases hc : conn.closed = true
    · have hspec := get_db_connection_spec env s s1 (some conn) hg
      have hcc : (closeCached s1).connCache = some (some { id := conn.id, closed := true }) := by
        simp [closeCached, hspec.1]
      have hg2 : get_db_connection env (closeCached s1) =
          (closeCached s1, some { id := conn.id, closed := true }) := by
        unfold get_db_connection
        rw [hcc]
      rw [run_query_eq_some env s db stmt vals commit s1 conn hg]
      rw [show ((closeCached s1, runQueryBody env db conn stmt vals commit)).1
          = closeCached s1 from rfl]
      rw [run_query_eq_some env (closeCached s1) db2 stmt2 vals2 commit2 (closeCached s1)
          { id := conn.id, closed := true } hg2,
        runQueryBody_closed env db2 { id := conn.id, closed := true } stmt2 vals2 commit2 rfl]
    · simp only [Bool.not_eq_true] at hc
      rw [run_query_eq_some env s db stmt vals commit s1 conn hg] at h
      by_cases hf : env.stmtFails stmt vals = true
      · rw [runQueryBody_execfail env db conn stmt vals commit hc hf] at h
        simp at h
      · simp only [Bool.not_eq_true] at hf
        cases commit
        · rw [runQueryBody_read env db conn stmt vals hc hf] at h
          simp at h
        · rw [runQueryBody_commit env db conn stmt vals hc hf] at h
          simp at h

/-!
Claim theorems.
-/

/-- C1 (code_bug evaluation): at the failing input, a fresh session submitting
the valid order (Ana, Water, 2) at instant 100 takes the success path, the
INSERT commits (the database afterwards holds exactly the new row with status
'em aberto' and timestamp 100), and yet the refreshed snapshot stored by the
triggered invalidate-and-reload is entirely empty: the reload's first query
raises on the st.cache_resource-cached connection handle that the INSERT's
finally clause had already closed, load_all_data's except catches it and the
remaining queries never run, so the refreshed orders dataset does not contain
the new row, contradicting the claim. -/
theorem c1_create_refresh_loses_row :
    (submitOrder env0 sInit dbC "Ana" "Water" 2 100).2.2.1 = SubmitOutcome.success
    ∧ (submitOrder env0 sInit dbC "Ana" "Water" 2 100).2.1.tb_pedido =
        [{ cliente := "Ana", produto := "Water", quantidade := 2, data := 100,
           status := "em aberto" }]
    ∧ (submitOrder env0 sInit dbC "Ana" "Water" 2 100).1.sessionData =
        { orders := [], products := [], clients := [], stock := [] } := by
  decide

/-- C7 (code_bug evaluation): at the failing input, calling refresh_data twice
in a row from a fresh session over the fixed database dbP yields different
snapshots: the first call's orders query succeeds (and its finally clause
closes the st.cache_resource-cached connection), so the first snapshot holds
the order row, while the second call's very first query raises on the closed
cached handle, load_all_data's except catches it, and the second snapshot is
empty, contradicting idempotence. -/
theorem c7_refresh_not_idempotent :
    (refresh_data env0 sInit dbP).1.sessionData.orders =
      [[Val.s "Ana", Val.s "Water", Val.i 2, Val.t 50, Val.s "em aberto"]]
    ∧ (refresh_data env0 (refresh_data env0 sInit dbP).1 dbP).1.sessionData.orders = []
    ∧ (refresh_data env0 sInit dbP).1.sessionData ≠
        (refresh_data env0 (refresh_data env0 sInit dbP).1 dbP).1.sessionData := by
  decide

/-- C2 (counterexample): the claim that every run_query call newly opens its
own connection and no connection is reused across calls is false: after one
run_query call from a fresh session exactly one connection was opened, the
next call to the accessor hands back that same handle (id 0), already closed,
and a second run_query call still leaves the total of opened connections at
one instead of two. -/
theorem c2_counterexample :
    (run_query env0 sInit dbP .ordersSelect [] false).1.opened = 1
    ∧ (get_db_connection env0 (run_query env0 sInit dbP .ordersSelect [] false).1).2 =
        some { id := 0, closed := true }
    ∧ (run_query env0 (run_query env0 sInit dbP .ordersSelect [] false).1 dbP
        .ordersSelect [] false).1.opened = 1 := by
  decide

/-- C2 (amended): run_query obtains its connection from the
st.cache_resource-cached accessor, so once the slot is filled a call opens no
new connection, and on every exit path of run_query the handle left in the
slot has been closed. -/
theorem c2_connection_cached_and_closed (env : Env) (s : SessionState) (db : DB)
    (stmt : Stmt) (vals : List Val) (commit : Bool) :
    (∀ v, s.connCache = some v → (run_query env s db stmt vals commit).1.opened = s.opened)
    ∧ (∀ c, (run_query env s db stmt vals commit).1.connCache = some (some c) →
        c.closed = true) := by
  rcases hg : get_db_connection env s with ⟨s1, co⟩
  have hspec := get_db_connection_spec env s s1 co hg
  constructor
  · intro v hv
    have hs1 : s1 = s := (hspec.2.2.2 v hv).1
    rcases co with _ | conn
    · rw [run_query_eq_none env s db stmt vals commit s1 hg, hs1]
    · rw [run_query_eq_some env s db stmt vals commit s1 conn hg]
      simp [closeCached_opened, hs1]
  · intro c hcc
    rcases co with _ | conn
    · rw [run_query_eq_none env s db stmt vals commit s1 hg] at hcc
      rw [hspec.1] at hcc
      injection hcc with h2
      exact Option.noConfusion h2
    · rw [run_query_eq_some env s db stmt vals commit s1 conn hg] at hcc
      simp only [closeCached, hspec.1] at hcc
      injection hcc with h2
      injection h2 with h3
      rw [← h3]

/-- C2 (witness for the amended theorem): from the state whose slot already
holds the closed handle of an earlier call, a run_query call opens nothing
new, and a handle equal to the one left in the slot is closed. -/
theorem c2_witness :
    (run_query env0 sClosed dbP .ordersSelect [] false).1.opened = sClosed.opened
    ∧ ({ id := 0, closed := true } : Conn).closed = true := by
  refine ⟨(c2_connection_cached_and_closed env0 sClosed dbP .ordersSelect [] false).1
      (some { id := 0, closed := true }) rfl, ?_⟩
  exact (c2_connection_cached_and_closed env0 sClosed dbP .ordersSelect [] false).2
      { id := 0, closed := true } (by decide)

/-- C6: every statement issued through the query executor has a fixed text
independent of user-supplied input, and the user-supplied values travel only
in the separate parameter tuple: the two input-parameterized call sites (the
category-filtered menu query and the order INSERT) submit identical statement
text for any two inputs, and their parameter tuples are exactly the supplied
values. -/
theorem c6_fixed_statement_text :
    (∀ c1 c2 : String, (menuProductsCall c1).1.text = (menuProductsCall c2).1.text)
    ∧ (∀ (a1 a2 p1 p2 : String) (q1 q2 : Int) (t1 t2 : Nat),
        (insertPedidoCall a1 p1 q1 t1).1.text = (insertPedidoCall a2 p2 q2 t2).1.text)
    ∧ (∀ c : String, (menuProductsCall c).2.1 = [Val.s c])
    ∧ (∀ (a p : String) (q : Int) (ts : Nat),
        (insertPedidoCall a p q ts).2.1 = [Val.s a, Val.s p, Val.i q, Val.t ts]) :=
  ⟨fun _ _ => rfl, fun _ _ _ _ _ _ _ _ => rfl, fun _ => rfl, fun _ _ _ _ => rfl⟩

/-- C8 (counterexample): when the stock-vs-orders view query returns zero
rows, the section does not report a total of 0; it renders no table and shows
the informational no-data message instead. -/
theorem c8_counterexample :
    (stockVsOrdersSection (RunResult.rows [])).totalReported ≠ some 0
    ∧ (stockVsOrdersSection (RunResult.rows [])).table = Option.none
    ∧ (stockVsOrdersSection (RunResult.rows [])).message = some SectionMsg.infoNoData := by
  decide

/-- C8 (amended): when the stock-vs-orders view query returns zero rows (or
fails), the home page summary renders no display table and shows the
informational no-data message; no total is computed or reported, and no error
is shown. -/
theorem c8_zero_rows_info (r : RunResult)
    (h : r = RunResult.rows [] ∨ r = RunResult.none) :
    stockVsOrdersSection r =
      { table := Option.none, totalReported := Option.none,
        message := some SectionMsg.infoNoData } := by
  rcases h with h | h <;> subst h <;> rfl

/-- C8 (witness for the amended theorem): the zero-row result concretely
produces the info-only rendering. -/
theorem c8_witness :
    stockVsOrdersSection (RunResult.rows []) =
      { table := Option.none, totalReported := Option.none,
        message := some SectionMsg.infoNoData } :=
  c8_zero_rows_info (RunResult.rows []) (Or.inl rfl)

/-- C3: a mutation statement whose execution fails (the statement reached the
database on an open handle and was rejected, e.g. a constraint violation) is
rolled back, run_query returns the failure indicator None and reports the
error, the database is unchanged, and at the page level a valid order
submission whose INSERT fails this way takes the error branch: no cache
invalidation happens, so the st.cache_data slot and st.session_state.data are
exactly what they were before, and only the single INSERT was handed to the
executor. -/
theorem c3_failed_mutation (env : Env) (s : SessionState) (db : DB)
    (stmt : Stmt) (vals : List Val)
    (customer product : String) (quantity : Int) (now : Nat)
    (s1 : SessionState) (conn : Conn)
    (hconn : get_db_connection env s = (s1, some conn))
    (hopen : conn.closed = false)
    (hvalid : customer ≠ "" ∧ product ≠ "" ∧ 0 < quantity)
    (hfail : env.stmtFails stmt vals = true)
    (hfailIns : env.stmtFails .insertPedido
        [Val.s customer, Val.s product, Val.i quantity, Val.t now] = true) :
    run_query env s db stmt vals true =
      (closeCached s1, db,
        { result := RunResult.none, rolledBack := true, errorReported := true })
    ∧ (submitOrder env s db customer product quantity now).2.2.1 = SubmitOutcome.dbFailure
    ∧ (submitOrder env s db customer product quantity now).1.sessionData = s.sessionData
    ∧ (submitOrder env s db customer product quantity now).1.dataCache = s.dataCache
    ∧ (submitOrder env s db customer product quantity now).2.1 = db
    ∧ (submitOrder env s db customer product quantity now).2.2.2 =
        [insertPedidoCall customer product quantity now] := by
  have hspec := get_db_connection_spec env s s1 (some conn) hconn
  have hA : run_query env s db stmt vals true =
      (closeCached s1, db,
        { result := RunResult.none, rolledBack := true, errorReported := true }) := by
    rw [run_query_eq_some env s db stmt vals true s1 conn hconn,
      runQueryBody_execfail env db conn stmt vals true hopen hfail]
  have hrun : run_query env s db .insertPedido
      [Val.s customer, Val.s product, Val.i quantity, Val.t now] true =
      (closeCached s1, db,
        { result := RunResult.none, rolledBack := true, errorReported := true }) := by
    rw [run_query_eq_some env s db .insertPedido
        [Val.s customer, Val.s product, Val.i quantity, Val.t now] true s1 conn hconn,
      runQueryBody_execfail env db conn .insertPedido
        [Val.s customer, Val.s product, Val.i quantity, Val.t now] true hopen hfailIns]
  have hsub : submitOrder env s db customer product quantity now =
      (closeCached s1, db, SubmitOutcome.dbFailure,
        [insertPedidoCall customer product quantity now]) := by
    unfold submitOrder
    rw [if_pos hvalid, hrun]
  refine ⟨hA, ?_, ?_, ?_, ?_, ?_⟩ <;>
    simp [hsub, closeCached_sessionData, closeCached_dataCache, hspec.2.1, hspec.2.2.1]

/-- C3 (witness): from a fresh session over dbC, with the database rejecting
the order INSERT, the valid submission (Ana, Water, 2) reports failure, the
snapshot slots are unchanged, the database is unchanged, and run_query rolled
back and returned None. -/
theorem c3_witness :
    (submitOrder envInsFail sInit dbC "Ana" "Water" 2 100).2.2.1 = SubmitOutcome.dbFailure
    ∧ (submitOrder envInsFail sInit dbC "Ana" "Water" 2 100).1.sessionData = sInit.sessionData
    ∧ (submitOrder envInsFail sInit dbC "Ana" "Water" 2 100).1.dataCache = sInit.dataCache
    ∧ (submitOrder envInsFail sInit dbC "Ana" "Water" 2 100).2.1 = dbC
    ∧ run_query envInsFail sInit dbC .insertPedido
        [Val.s "Ana", Val.s "Water", Val.i 2, Val.t 100] true =
      (closeCached sOpenW, dbC,
        { result := RunResult.none, rolledBack := true, errorReported := true }) := by
  have h := c3_failed_mutation envInsFail sInit dbC .insertPedido
      [Val.s "Ana", Val.s "Water", Val.i 2, Val.t 100] "Ana" "Water" 2 100 sOpenW connW
      (by decide) (by decide) (by decide) (by decide) (by decide)
  exact ⟨h.2.1, h.2.2.1, h.2.2.2.1, h.2.2.2.2.1, h.1⟩

/-- C4: when two or more displayed order rows share the same composite
(client, product, timestamp) key and an edit or delete targets that key, the
flow refuses with the ambiguity warning: the state and database are returned
unchanged and no statement at all is handed to the executor. -/
theorem c4_ambiguous_refused (env : Env) (s : SessionState) (db : DB)
    (l1 l2 l3 : List DisplayOrder) (r1 r2 : DisplayOrder) (act : EditAction)
    (hc : r1.client = r2.client) (hp : r1.product = r2.product) (hd : r1.date = r2.date) :
    editDeleteFlow env s db (l1 ++ r1 :: l2 ++ r2 :: l3) (uniqueKey r1) act
      = (s, db, EditOutcome.ambiguousWarning, []) := by
  have hkey : uniqueKey r2 = uniqueKey r1 := by
    unfold uniqueKey
    rw [hc, hp, hd]
  have hP1 : (uniqueKey r1 == uniqueKey r1) = true := by simp
  have hP2 : (uniqueKey r2 == uniqueKey r1) = true := by rw [hkey]; simp
  have hlen : 1 < ((l1 ++ r1 :: l2 ++ r2 :: l3).filter
      (fun r => uniqueKey r == uniqueKey r1)).length := by
    simp [List.filter_append, List.filter_cons, hP1, hP2]
    omega
  simp only [editDeleteFlow]
  rw [if_pos hlen]

/-- C4 (witness): the two concrete rows rowAW and rowBW share the composite
key (Ana, Water, 50); targeting it with a delete is refused with no call and
no state change. -/
theorem c4_witness :
    editDeleteFlow env0 sInit dbP [rowAW, rowBW] (uniqueKey rowAW) EditAction.delete
      = (sInit, dbP, EditOutcome.ambiguousWarning, []) :=
  c4_ambiguous_refused env0 sInit dbP [] [] [] rowAW rowBW EditAction.delete rfl rfl rfl

/-- C5: on an actual (non-memoized) load, each of the four datasets is
determined by its own query alone: if its run_query call returns None or
raises, that dataset is the empty sequence, and if its call returns rows the
dataset is exactly those rows, independently of how the other three calls
fared. -/
theorem c5_dataset_failure_isolation (env : Env) (s : SessionState) (db : DB)
    (hmiss : s.dataCache = Option.none)
    (s1 s2 s3 s4 : SessionState) (d1 d2 d3 d4 : DB) (o1 o2 o3 o4 : RunOutcome)
    (h1 : run_query env s db .ordersSelect [] false = (s1, d1, o1))
    (h2 : run_query env s1 db .productsSelect [] false = (s2, d2, o2))
    (h3 : run_query env s2 db .clientsSelect [] false = (s3, d3, o3))
    (h4 : run_query env s3 db .stockSelect [] false = (s4, d4, o4)) :
    (o1.result = RunResult.none → (load_all_data env s db).2.1.orders = [])
    ∧ (o1.result = RunResult.raised → (load_all_data env s db).2.1.orders = [])
    ∧ (∀ rs, o1.result = RunResult.rows rs → (load_all_data env s db).2.1.orders = rs)
    ∧ (o2.result = RunResult.none → (load_all_data env s db).2.1.products = [])
    ∧ (o2.result = RunResult.raised → (load_all_data env s db).2.1.products = [])
    ∧ (∀ rs, o2.result = RunResult.rows rs → (load_all_data env s db).2.1.products = rs)
    ∧ (o3.result = RunResult.none → (load_all_data env s db).2.1.clients = [])
    ∧ (o3.result = RunResult.raised → (load_all_data env s db).2.1.clients = [])
    ∧ (∀ rs, o3.result = RunResult.rows rs → (load_all_data env s db).2.1.clients = rs)
    ∧ (o4.result = RunResult.none → (load_all_data env s db).2.1.stock = [])
    ∧ (o4.result = RunResult.raised → (load_all_data env s db).2.1.stock = [])
    ∧ (∀ rs, o4.result = RunResult.rows rs → (load_all_data env s db).2.1.stock = rs) := by
  by_cases hr1 : o1.result = RunResult.raised
  · have e : (load_all_data env s db).2.1 =
        { orders := [], products := [], clients := [], stock := [] } := by
      simp [load_all_data, hmiss, h1, hr1]
    have hm2 : o2.result = RunResult.raised := by
      have hh := run_query_raised_next env s db db .ordersSelect .productsSelect
          [] [] false false (by rw [h1]; exact hr1)
      simp only [h1, h2] at hh
      exact hh
    have hm3 : o3.result = RunResult.raised := by
      have hh := run_query_raised_next env s1 db db .productsSelect .clientsSelect
          [] [] false false (by rw [h2]; exact hm2)
      simp only [h2, h3] at hh
      exact hh
    have hm4 : o4.result = RunResult.raised := by
      have hh := run_query_raised_next env s2 db db .clientsSelect .stockSelect
          [] [] false false (by rw [h3]; exact hm3)
      simp only [h3, h4] at hh
      exact hh
    exact ⟨fun _ => by simp [e], fun _ => by simp [e],
      fun rs h => absurd (h.symm.trans hr1) (by simp),
      fun _ => by simp [e], fun _ => by simp [e],
      fun rs h => absurd (h.symm.trans hm2) (by simp),
      fun _ => by simp [e], fun _ => by simp [e],
      fun rs h => absurd (h.symm.trans hm3) (by simp),
      fun _ => by simp [e], fun _ => by simp [e],
      fun rs h => absurd (h.symm.trans hm4) (by simp)⟩
  · by_cases hr2 : o2.result = RunResult.raised
    · have e : (load_all_data env s db).2.1 =
          { orders := o1.result.rowsOrNil, products := [], clients := [], stock := [] } := by
        simp [load_all_data, hmiss, h1, h2, hr1, hr2]
      have hm3 : o3.result = RunResult.raised := by
        have hh := run_query_raised_next env s1 db db .productsSelect .clientsSelect
            [] [] false false (by rw [h2]; exact hr2)
        simp only [h2, h3] at hh
        exact hh
      have hm4 : o4.result = RunResult.raised := by
        have hh := run_query_raised_next env s2 db db .clientsSelect .stockSelect
            [] [] false false (by rw [h3]; exact hm3)
        simp only [h3, h4] at hh
        exact hh
      exact ⟨fun h => by simp [e, h, RunResult.rowsOrNil],
        fun h => by simp [e, h, RunResult.rowsOrNil],
        fun rs h => by simp [e, h, RunResult.rowsOrNil],
        fun _ => by simp [e], fun _ => by simp [e],
        fun rs h => absurd (h.symm.trans hr2) (by simp),
        fun _ => by simp [e], fun _ => by simp [e],
        fun rs h => absurd (h.symm.trans hm3) (by simp),
        fun _ => by simp [e], fun _ => by simp [e],
        fun rs h => absurd (h.symm.trans hm4) (by simp)⟩
    · by_cases hr3 : o3.result = RunResult.raised
      · have e : (load_all_data env s db).2.1 =
            { orders := o1.result.rowsOrNil, products := o2.result.rowsOrNil,
              clients := [], stock := [] } := by
          simp [load_all_data, hmiss, h1, h2, h3, hr1, hr2, hr3]
        have hm4 : o4.result = RunResult.raised := by
          have hh := run_query_raised_next env s2 db db .clientsSelect .stockSelect
              [] [] false false (by rw [h3]; exact hr3)
          simp only [h3, h4] at hh
          exact hh
        exact ⟨fun h => by simp [e, h, RunResult.rowsOrNil],
          fun h => by simp [e, h, RunResult.rowsOrNil],
          fun rs h => by simp [e, h, RunResult.rowsOrNil],
          fun h => by simp [e, h, RunResult.rowsOrNil],
          fun h => by simp [e, h, RunResult.rowsOrNil],
          fun rs h => by simp [e, h, RunResult.rowsOrNil],
          fun _ => by simp [e], fun _ => by simp [e],
          fun rs h => absurd (h.symm.trans hr3) (by simp),
          fun _ => by simp [e], fun _ => by simp [e],
          fun rs h => absurd (h.symm.trans hm4) (by simp)⟩
      · by_cases hr4 : o4.result = RunResult.raised
        · have e : (load_all_data env s db).2.1 =
              { orders := o1.result.rowsOrNil, products := o2.result.rowsOrNil,
                clients := o3.result.rowsOrNil, stock := [] } := by
            simp [load_all_data, hmiss, h1, h2, h3, h4, hr1, hr2, hr3, hr4]
          exact ⟨fun h => by simp [e, h, RunResult.rowsOrNil],
            fun h => by simp [e, h, RunResult.rowsOrNil],
            fun rs h => by simp [e, h, RunResult.rowsOrNil],
            fun h => by simp [e, h, RunResult.rowsOrNil],
            fun h => by simp [e, h, RunResult.rowsOrNil],
            fun rs h => by simp [e, h, RunResult.rowsOrNil],
            fun h => by simp [e, h, RunResult.rowsOrNil],
            fun h => by simp [e, h, RunResult.rowsOrNil],
            fun rs h => by simp [e, h, RunResult.rowsOrNil],
            fun _ => by simp [e], fun _ => by simp [e],
            fun rs h => absurd (h.symm.trans hr4) (by simp)⟩
        · have e : (load_all_data env s db).2.1 =
              { orders := o1.result.rowsOrNil, products := o2.result.rowsOrNil,
                clients := o3.result.rowsOrNil, stock := o4.result.rowsOrNil } := by
            simp [load_all_data, hmiss, h1, h2, h3, h4, hr1, hr2, hr3, hr4]
          exact ⟨fun h => by simp [e, h, RunResult.rowsOrNil],
            fun h => by simp [e, h, RunResult.rowsOrNil],
            fun rs h => by simp [e, h, RunResult.rowsOrNil],
            fun h => by simp [e, h, RunResult.rowsOrNil],
            fun h => by simp [e, h, RunResult.rowsOrNil],
            fun rs h => by simp [e, h, RunResult.rowsOrNil],
            fun h => by simp [e, h, RunResult.rowsOrNil],
            fun h => by simp [e, h, RunResult.rowsOrNil],
            fun rs h => by simp [e, h, RunResult.rowsOrNil],
            fun h => by simp [e, h, RunResult.rowsOrNil],
            fun h => by simp [e, h, RunResult.rowsOrNil],
            fun rs h => by simp [e, h, RunResult.rowsOrNil]⟩

/-- C5 (witness): from a fresh session over dbP, the orders query succeeds
and its dataset holds its rows, while the products query, whose call
propagates the exception from the closed cached connection, yields the empty
dataset. -/
theorem c5_witness :
    (load_all_data env0 sInit dbP).2.1.orders =
      [[Val.s "Ana", Val.s "Water", Val.i 2, Val.t 50, Val.s "em aberto"]]
    ∧ (load_all_data env0 sInit dbP).2.1.products = [] := by
  have h := c5_dataset_failure_isolation env0 sInit dbP rfl
      sClosed sClosed sClosed sClosed dbP dbP dbP dbP
      { result := RunResult.rows [[Val.s "Ana", Val.s "Water", Val.i 2, Val.t 50, Val.s "em aberto"]],
        rolledBack := false, errorReported := false }
      { result := RunResult.raised, rolledBack := false, errorReported := false }
      { result := RunResult.raised, rolledBack := false, errorReported := false }
      { result := RunResult.raised, rolledBack := false, errorReported := false }
      (by decide) (by decide) (by decide) (by decide)
  exact ⟨h.2.2.1 _ rfl, h.2.2.2.2.1 rfl⟩

/-- C9: the clients dataset of the snapshot is fed by the DISTINCT Cliente
query over tb_pedido, not by tb_clientes: membership in its result is
equivalent to occurring as a client of some order, so a client registered in
tb_clientes who never placed an order is absent from it, while the order
form's customer list, fed by the tb_clientes query, does include that
client. -/
theorem c9_clients_from_orders (db : DB) (c : String)
    (h1 : c ∈ db.tb_clientes)
    (h2 : ∀ o ∈ db.tb_pedido, o.cliente ≠ c) :
    (∀ x : String, [Val.s x] ∈ evalRead db .clientsSelect [] ↔
        x ∈ db.tb_pedido.map (fun o => o.cliente))
    ∧ [Val.s c] ∉ evalRead db .clientsSelect []
    ∧ c ∈ customerListFrom (RunResult.rows (evalRead db .clientesSelect [])) := by
  have hmem : ∀ x : String, [Val.s x] ∈ evalRead db .clientsSelect [] ↔
      x ∈ db.tb_pedido.map (fun o => o.cliente) := by
    intro x
    simp [evalRead, List.mem_map, mem_sortLe, List.mem_dedup]
  have hcs : c ∈ sortLe strLe db.tb_clientes := (mem_sortLe strLe c db.tb_clientes).2 h1
  have hrow : [Val.s c] ∈ (sortLe strLe db.tb_clientes).map (fun n => ([Val.s n] : Row)) :=
    List.mem_map_of_mem _ hcs
  have hne : (sortLe strLe db.tb_clientes).map (fun n => ([Val.s n] : Row)) ≠ [] := by
    intro h0
    rw [h0] at hrow
    cases hrow
  refine ⟨hmem, ?_, ?_⟩
  · rw [hmem]
    simp only [List.mem_map]
    rintro ⟨o, ho, hoc⟩
    exact h2 o ho hoc
  · have hev : evalRead db .clientesSelect [] =
        (sortLe strLe db.tb_clientes).map (fun n => ([Val.s n] : Row)) := rfl
    rw [hev]
    rcases hrs : (sortLe strLe db.tb_clientes).map (fun n => ([Val.s n] : Row)) with _ | ⟨r0, rest⟩
    · exact absurd hrs hne
    · rw [hrs] at hrow
      simp only [customerListFrom, List.isEmpty_cons, Bool.false_eq_true, if_false]
      refine List.mem_cons_of_mem _ ?_
      rw [List.mem_filterMap]
      exact ⟨[Val.s c], hrow, rfl⟩

/-- C9 (witness): in dbP, Bruno is registered in tb_clientes but has no
order, so Bruno is absent from the clients query's rows and present in the
customer list built from the tb_clientes query. -/
theorem c9_witness :
    [Val.s "Bruno"] ∉ evalRead dbP .clientsSelect []
    ∧ "Bruno" ∈ customerListFrom (RunResult.rows (evalRead dbP .clientesSelect [])) := by
  have h := c9_clients_from_orders dbP "Bruno" (by decide) (by decide)
  exact ⟨h.2.1, h.2.2⟩

/-- C10 (counterexample): run_query does propagate an exception to its
caller: sClosed is exactly the state the process's first run_query call
leaves behind, and a call made from it delivers the propagated exception
(raised) rather than a returned row list, True, or None, with no error
reported. -/
theorem c10_counterexample :
    (run_query env0 sInit dbP .ordersSelect [] false).1 = sClosed
    ∧ (run_query env0 sClosed dbP .ordersSelect [] false).2.2.result = RunResult.raised
    ∧ (run_query env0 sClosed dbP .ordersSelect [] false).2.2.errorReported = false := by
  decide

/-- C10 (amended): run_query returns the fetched row list (read), True
(committed mutation), or None (covering an unavailable connection and a
statement rejected on an open handle after rollback) whenever the connection
it obtains is absent or open; but when the obtained cached handle is already
closed, the steady state after the process's first call, the rollback in the
except handler itself raises and the exception propagates to the caller with
no error reported; and that closed-handle case is the only way an exception
escapes. -/
theorem c10_run_query_total_or_raises (env : Env) (s : SessionState) (db : DB)
    (stmt : Stmt) (vals : List Val) (commit : Bool)
    (s1 : SessionState) (co : Option Conn)
    (hg : get_db_connection env s = (s1, co)) :
    (co = Option.none →
      (run_query env s db stmt vals commit).2.2.result = RunResult.none)
    ∧ (∀ conn, co = some conn → conn.closed = false →
        (run_query env s db stmt vals commit).2.2.result = RunResult.none
        ∨ (commit = true ∧ (run_query env s db stmt vals commit).2.2.result = RunResult.ok)
        ∨ (commit = false ∧ (run_query env s db stmt vals commit).2.2.result
            = RunResult.rows (evalRead db stmt vals)))
    ∧ (∀ conn, co = some conn → conn.closed = true →
        (run_query env s db stmt vals commit).2.2.result = RunResult.raised
        ∧ (run_query env s db stmt vals commit).2.2.errorReported = false)
    ∧ ((run_query env s db stmt vals commit).2.2.result = RunResult.raised →
        ∃ conn, co = some conn ∧ conn.closed = true) := by
  refine ⟨?_, ?_, ?_, ?_⟩
  · intro hco
    subst hco
    rw [run_query_eq_none env s db stmt vals commit s1 hg]
  · intro conn hco hopen
    subst hco
    rw [run_query_eq_some env s db stmt vals commit s1 conn hg]
    by_cases hf : env.stmtFails stmt vals = true
    · rw [runQueryBody_execfail env db conn stmt vals commit hopen hf]
      exact Or.inl rfl
    · simp only [Bool.not_eq_true] at hf
      cases commit
      · rw [runQueryBody_read env db conn stmt vals hopen hf]
        exact Or.inr (Or.inr ⟨rfl, rfl⟩)
      · rw [runQueryBody_commit env db conn stmt vals hopen hf]
        exact Or.inr (Or.inl ⟨rfl, rfl⟩)
  · intro conn hco hclosed
    subst hco
    rw [run_query_eq_some env s db stmt vals commit s1 conn hg,
      runQueryBody_closed env db conn stmt vals commit hclosed]
    exact ⟨rfl, rfl⟩
  · intro hraised
    rcases co with _ | conn
    · rw [run_query_eq_none env s db stmt vals commit s1 hg] at hraised
      simp at hraised
    · by_cases hc : conn.closed = true
      · exact ⟨conn, rfl, hc⟩
      · simp only [Bool.not_eq_true] at hc
        rw [run_query_eq_some env s db stmt vals commit s1 conn hg] at hraised
        by_cases hf : env.stmtFails stmt vals = true
        · rw [runQueryBody_execfail env db conn stmt vals commit hc hf] at hraised
          simp at hraised
        · simp only [Bool.not_eq_true] at hf
          cases commit
          · rw [runQueryBody_read env db conn stmt vals hc hf] at hraised
            simp at hraised
          · rw [runQueryBody_commit env db conn stmt vals hc hf] at hraised
            simp at hraised

/-- C10 (witness for the amended theorem): from the state whose cache slot
holds the handle closed by the first call, a run_query call delivers the
propagated exception with no error reported. -/
theorem c10_witness :
    (run_query env0 sClosed dbP .ordersSelect [] false).2.2.result = RunResult.raised
    ∧ (run_query env0 sClosed dbP .ordersSelect [] false).2.2.errorReported = false :=
  (c10_run_query_total_or_raises env0 sClosed dbP .ordersSelect [] false
      sClosed (some { id := 0, closed := true }) (by decide)).2.2.1
    { id := 0, closed := true } rfl rfl

end Utilidade
